import Mathlib

/-!
Verification of the asynchronous request-tracking core of the
terraform-provider-profitbricks repository (`profitbricks/provider.go`),
as a shallow embedding in Lean 4.

Durations are modelled in nanoseconds as in Go's `time` package.
Go strings are modelled as Lean `String`; the only byte-level access in
the source is the test `url[len(url)-1] == '/'`, which agrees with the
character-level test `url.back = '/'` because '/' is a one-byte ASCII
character (in UTF-8 no trailing byte of a multi-byte character equals
0x2F), so the character-level model is extensionally faithful.
-/

/-- Go `time.Second`, in nanoseconds. -/
def timeSecond : Nat := 1000000000

/-- Go `time.Minute`, in nanoseconds. -/
def timeMinute : Nat := 60 * timeSecond

/-- The `Metadata` part of a profitbricks request-status response:
`request.Metadata.Status` and `request.Metadata.Message` are the only
fields the provider code reads. -/
structure RequestMetadata where
  Status : String
  Message : String
deriving DecidableEq, Repr

/-- A profitbricks request-status response object (`profitbricks.RequestStatus`),
restricted to the fields the provider code reads. -/
structure Request where
  Metadata : RequestMetadata
deriving DecidableEq, Repr

/-- Embedding of `cleanURL` from provider.go:

```go
func cleanURL(url string) string {
    length := len(url)
    if length > 1 && url[length-1] == '/' {
        url = url[:length-1]
    }
    return url
}
``` -/
def cleanURL (url : String) : String :=
  let length := url.length
  if decide (length > 1) && (url.back == '/') then
    url.dropRight 1
  else
    url

/-- The behaviour of `cleanURL` as the specification claim words it:
the result is the input with its final character removed when the input
has length greater than 1 and ends in '/', and the input unchanged
otherwise. Stated separately so the code-derived `cleanURL` can be
proved to refine it. -/
def cleanURLSpec (url : String) : String :=
  if url.length > 1 ∧ url.back = '/' then url.dropRight 1 else url

/-- The provider `Config` built by `providerConfigure` (fields of the
`Config` struct that `providerConfigure` fills). -/
structure Config where
  Username : String
  Password : String
  Endpoint : String
  Retries : Int
  Token : String
deriving DecidableEq, Repr

/-- Embedding of `providerConfigure` from provider.go. `d.GetOk(k)` on an
optional string field returns the value together with `ok`, which is true
exactly when the value is set and non-zero (non-empty for strings); the
zero value `""` is returned when unset. The Go code:

```go
username, usernameOk := d.GetOk("username")
password, passwordOk := d.GetOk("password")
token, _ := d.GetOk("token")
if token == "" {
    if !usernameOk { return nil, fmt.Errorf("Neither ... username ...") }
    if !passwordOk { return nil, fmt.Errorf("Neither ... password ...") }
} else {
    if usernameOk || passwordOk { return nil, fmt.Errorf("Only provide ...") }
}
config := Config{ Username: ..., Endpoint: cleanURL(...), ... }
return config.Client()
```

Building the client from the config is modelled as returning the config. -/
def providerConfigure (username password token endpoint : String) (retries : Int) :
    Except String Config :=
  let usernameOk := username != ""
  let passwordOk := password != ""
  if token == "" then
    if !usernameOk then
      Except.error "Neither ProfitBricks token, nor ProfitBricks username has been provided"
    else if !passwordOk then
      Except.error "Neither ProfitBricks token, nor ProfitBricks password has been provided"
    else
      Except.ok { Username := username, Password := password,
                  Endpoint := cleanURL endpoint, Retries := retries, Token := token }
  else
    if usernameOk || passwordOk then
      Except.error "Only provide ProfitBricks token OR ProfitBricks username/password."
    else
      Except.ok { Username := username, Password := password,
                  Endpoint := cleanURL endpoint, Retries := retries, Token := token }

/-- The Go triple `(interface{}, string, error)` returned by the refresh
closure: the resource payload (the request object, or nil), the
current-state label, and the error (nil or a message). -/
structure RefreshReturn where
  payload : Option Request
  state : String
  err : Option String
deriving DecidableEq, Repr

/-- Embedding of the closure returned by `resourceStateRefreshFunc` in
provider.go. The remote client is the oracle `getRequestStatus`
(`client.GetRequestStatus`); a transport error is its `.error` case.
Alongside the Go triple it returns the list of paths actually queried,
so that "no remote status query is issued" is stated as this list being
empty. The Go code:

```go
if path == "" { return nil, "", fmt.Errorf("Can not check a state when path is empty") }
request, err := client.GetRequestStatus(path)
if err != nil { return nil, "", fmt.Errorf("Request failed with following error: %s", err) }
if request.Metadata.Status == "FAILED" {
    return nil, "", fmt.Errorf("Request failed with following error: %s", request.Metadata.Message)
}
if request.Metadata.Status == "DONE" { return request, "DONE", nil }
return nil, request.Metadata.Status, nil
``` -/
def resourceStateRefreshFunc (getRequestStatus : String → Except String Request)
    (path : String) : RefreshReturn × List String :=
  if path == "" then
    ({ payload := none, state := "",
       err := some "Can not check a state when path is empty" }, [])
  else
    match getRequestStatus path with
    | Except.error e =>
        ({ payload := none, state := "",
           err := some ("Request failed with following error: " ++ e) }, [path])
    | Except.ok request =>
        if request.Metadata.Status == "FAILED" then
          ({ payload := none, state := "",
             err := some ("Request failed with following error: "
                           ++ request.Metadata.Message) }, [path])
        else if request.Metadata.Status == "DONE" then
          ({ payload := some request, state := "DONE", err := none }, [path])
        else
          ({ payload := none, state := request.Metadata.Status, err := none }, [path])

/-- Embedding of the package-level `resourcePendingStates` list. -/
def resourcePendingStates : List String := ["RUNNING", "QUEUED"]

/-- Embedding of the package-level `resourceTargetStates` list. -/
def resourceTargetStates : List String := ["DONE"]

/-- Embedding of `schema.ResourceTimeout` restricted to what
`resourceDefaultTimeouts` sets: an optional duration per operation kind. -/
structure ResourceTimeout where
  Create : Option Nat
  Update : Option Nat
  Delete : Option Nat
  Dflt : Option Nat
deriving DecidableEq, Repr

/-- Embedding of `schema.DefaultTimeout`: wraps a duration as the declared
default for a timeout slot. -/
def DefaultTimeout (d : Nat) : Option Nat := some d

/-- Embedding of the package-level `resourceDefaultTimeouts` table
(`Dflt` models the Go field `Default`):

```go
var resourceDefaultTimeouts = schema.ResourceTimeout{
    Create:  schema.DefaultTimeout(60 * time.Minute),
    Update:  schema.DefaultTimeout(60 * time.Minute),
    Delete:  schema.DefaultTimeout(60 * time.Minute),
    Default: schema.DefaultTimeout(60 * time.Minute),
}
``` -/
def resourceDefaultTimeouts : ResourceTimeout :=
  { Create := DefaultTimeout (60 * timeMinute)
    Update := DefaultTimeout (60 * timeMinute)
    Delete := DefaultTimeout (60 * timeMinute)
    Dflt := DefaultTimeout (60 * timeMinute) }

/-- The operation kinds selecting a timeout slot (`dflt` models Go's
`schema.TimeoutDefault`). -/
inductive TimeoutKind where
  | create
  | update
  | delete
  | dflt
deriving DecidableEq, Repr

/-- Modelled from the spec: the resolution performed by `d.Timeout(timeoutType)`
of the external schema helper (vendored terraform library code, not under
src/) when the user supplies no override — it returns the schema-declared
default duration for the operation kind, per the spec's WaitPolicy being
"constructed once per operation-kind (create/update/delete/default)" from
the declared defaults. -/
def ResourceTimeout.timeoutFor (rt : ResourceTimeout) (k : TimeoutKind) : Option Nat :=
  match k with
  | TimeoutKind.create => rt.Create
  | TimeoutKind.update => rt.Update
  | TimeoutKind.delete => rt.Delete
  | TimeoutKind.dflt => rt.Dflt

/-- Embedding of `resource.StateChangeConf` restricted to the fields
`getStateChangeConf` sets. -/
structure StateChangeConf where
  Pending : List String
  Target : List String
  Timeout : Nat
  MinTimeout : Nat
  Delay : Nat
  NotFoundChecks : Nat
deriving DecidableEq, Repr

/-- Embedding of `getStateChangeConf` from provider.go; the resolved
`d.Timeout(timeoutType)` duration is passed in as `timeout`:

```go
stateConf := &resource.StateChangeConf{
    Pending:        resourcePendingStates,
    Target:         resourceTargetStates,
    Refresh:        resourceStateRefreshFunc(meta, location),
    Timeout:        d.Timeout(timeoutType),
    MinTimeout:     10 * time.Second,
    Delay:          10 * time.Second,
    NotFoundChecks: 600,
}
``` -/
def getStateChangeConf (timeout : Nat) : StateChangeConf :=
  { Pending := resourcePendingStates
    Target := resourceTargetStates
    Timeout := timeout
    MinTimeout := 10 * timeSecond
    Delay := 10 * timeSecond
    NotFoundChecks := 600 }

/-- The WaitPolicy of the spec: per-operation-kind timeout, minimum poll
interval, initial delay, and not-found/transient tolerance. -/
structure WaitPolicy where
  timeout : Nat
  minPollInterval : Nat
  initialDelay : Nat
  notFoundTolerance : Nat
deriving DecidableEq, Repr

/-- The default WaitPolicy, read off `getStateChangeConf` applied to the
default 60-minute timeout of `resourceDefaultTimeouts`. -/
def defaultWaitPolicy : WaitPolicy :=
  let conf := getStateChangeConf (60 * timeMinute)
  { timeout := conf.Timeout
    minPollInterval := conf.MinTimeout
    initialDelay := conf.Delay
    notFoundTolerance := conf.NotFoundChecks }

/-- Terminal outcome of a wait, per the spec's state machine; `stillWaiting`
marks a finite poll trace exhausted while the operation is still pending
(the loop would keep polling). `timedOut` carries the elapsed duration of
the spec's timeout error; the error's last-known-raw-status component is
not modelled, as no claim concerns it. -/
inductive WaitResult where
  | success (payload : Request)
  | failed (msg : String)
  | aborted (msg : String)
  | timedOut (elapsed : Nat)
  | stillWaiting
deriving DecidableEq, Repr

/-- One step of lower-bound elapsed-time bookkeeping: `waitTime w i n` is
the time spent waiting before the polls of a trace of length `n`, when the
wait before the first of them is `w` and every later one follows after the
minimum interval `i`. -/
def waitTime (w i : Nat) : Nat → Nat
  | 0 => 0
  | n + 1 => w + n * i

/-- Modelled from the spec: the Wait Coordinator loop (the vendored
terraform helper `StateChangeConf.WaitForState`, code of this repository
not under src/). Follows the spec's transition rules: a transport error
(the status query itself errors) is counted against the not-found/transient
tolerance budget and polling continues while budget remains, aborting with
the wrapped error once the budget is exhausted; a raw status "FAILED" ends
the wait as failed with the wrapped remote message; "DONE" ends it
successfully with the request payload; any other status leaves the wait
pending and resets the consecutive-failure count. Per the spec, elapsed
wall-clock time is bounded by `policy.timeout`: whenever the wait would
remain pending but the elapsed lower bound already exceeds the timeout —
so real elapsed time certainly does too — the wait ends as `timedOut`
(on real time the transition may fire even earlier, since the model only
tracks the lower bound). Arguments `failures`, `polls`, `elapsed`
accumulate the consecutive transport-failure count, the number of polls
issued, and the lower bound on elapsed wall-clock time; `nextWait` is the
delay observed before the next poll (the initial delay before the first,
the minimum poll interval afterwards). -/
def waitGo (policy : WaitPolicy) (failures polls elapsed nextWait : Nat) :
    List (Except String Request) → WaitResult × Nat × Nat
  | [] => (WaitResult.stillWaiting, polls, elapsed)
  | q :: rest =>
    let elapsed' := elapsed + nextWait
    let polls' := polls + 1
    match q with
    | Except.error m =>
      if policy.notFoundTolerance ≤ failures + 1 then
        (WaitResult.aborted ("Request failed with following error: " ++ m), polls', elapsed')
      else if policy.timeout < elapsed' then
        (WaitResult.timedOut elapsed', polls', elapsed')
      else
        waitGo policy (failures + 1) polls' elapsed' policy.minPollInterval rest
    | Except.ok request =>
      if request.Metadata.Status == "FAILED" then
        (WaitResult.failed ("Request failed with following error: "
                             ++ request.Metadata.Message), polls', elapsed')
      else if request.Metadata.Status == "DONE" then
        (WaitResult.success request, polls', elapsed')
      else if policy.timeout < elapsed' then
        (WaitResult.timedOut elapsed', polls', elapsed')
      else
        waitGo policy 0 polls' elapsed' policy.minPollInterval rest

/-- Modelled from the spec: `waitForCompletion(handle, policy)`. An empty
handle is the spec's LookupError — a programming-contract violation that
aborts immediately, before any poll is issued; otherwise the coordinator
observes the initial delay and runs the polling loop over the trace of
status-query results. Returns the outcome together with the number of
polls issued and the lower bound on elapsed wall-clock time. -/
def waitForCompletion (policy : WaitPolicy) (path : String)
    (trace : List (Except String Request)) : WaitResult × Nat × Nat :=
  if path == "" then
    (WaitResult.aborted "Can not check a state when path is empty", 0, 0)
  else
    waitGo policy 0 0 0 policy.initialDelay trace

/-- A WaitPolicy as in the spec's Scenario D: the not-found/transient
tolerance budget is 600 and the timeout (120 minutes) is large enough that
the budget, not the wall clock, ends an all-failures wait — the 600 polls
take at least 10 s + 599 × 10 s = 6000 s, within the 7200 s timeout.
(Under `defaultWaitPolicy` the 60-minute timeout would be exceeded first.) -/
def scenarioDPolicy : WaitPolicy :=
  { timeout := 120 * timeMinute
    minPollInterval := 10 * timeSecond
    initialDelay := 10 * timeSecond
    notFoundTolerance := 600 }

lemma waitTime_self (i : Nat) : ∀ n, waitTime i i n = n * i
  | 0 => by simp [waitTime]
  | n + 1 => by simp [waitTime, Nat.succ_mul, Nat.add_comm]

lemma waitTime_succ (w i n : Nat) : waitTime w i (n + 1) = w + n * i := rfl

/-- A trace of transport errors short of the tolerance budget, polled while
the elapsed lower bound stays within the policy timeout, leaves the wait
still pending, having issued one poll per trace element. -/
lemma waitGo_errors_pending (policy : WaitPolicy) :
    ∀ (ms : List String) (f p e w : Nat),
      f + ms.length < policy.notFoundTolerance →
      e + waitTime w policy.minPollInterval ms.length ≤ policy.timeout →
      waitGo policy f p e w (ms.map Except.error) =
        (WaitResult.stillWaiting, p + ms.length, e + waitTime w policy.minPollInterval ms.length)
  | [], f, p, e, w, _, _ => by simp [waitGo, waitTime]
  | m :: ms, f, p, e, w, h, htime => by
    simp only [List.length_cons] at h htime
    have hlt : ¬ policy.notFoundTolerance ≤ f + 1 := by omega
    have hbound : e + w ≤ e + waitTime w policy.minPollInterval (ms.length + 1) := by
      rw [waitTime_succ]
      exact Nat.add_le_add_left (Nat.le_add_right w _) e
    have hnt : ¬ policy.timeout < e + w := Nat.not_lt.mpr (le_trans hbound htime)
    have htime' : e + w +
        waitTime policy.minPollInterval policy.minPollInterval ms.length ≤ policy.timeout := by
      rw [waitTime_self]
      have hsplit : e + w + ms.length * policy.minPollInterval =
          e + waitTime w policy.minPollInterval (ms.length + 1) := by
        rw [waitTime_succ]; ring
      rw [hsplit]
      exact htime
    have ih := waitGo_errors_pending policy ms (f + 1) (p + 1) (e + w)
      policy.minPollInterval (by omega) htime'
    simp only [List.map_cons, waitGo, hlt, hnt, if_false, ih, waitTime_self, List.length_cons,
      waitTime_succ, Prod.mk.injEq, true_and]
    constructor
    · omega
    · ring

/-- A trace of transport errors that exhausts the tolerance budget exactly
at its last element aborts with that last wrapped error, having issued one
poll per trace element, provided the elapsed lower bound stays within the
policy timeout over the polls before the last (the exhausting poll aborts
regardless of the clock). -/
lemma waitGo_errors_abort (policy : WaitPolicy) :
    ∀ (ms : List String) (m : String) (f p e w : Nat),
      f + ms.length + 1 = policy.notFoundTolerance →
      e + waitTime w policy.minPollInterval ms.length ≤ policy.timeout →
      waitGo policy f p e w ((ms ++ [m]).map Except.error) =
        (WaitResult.aborted ("Request failed with following error: " ++ m),
          p + ms.length + 1,
          e + waitTime w policy.minPollInterval (ms.length + 1))
  | [], m, f, p, e, w, h, _ => by
    simp only [List.length_nil] at h
    simp only [List.nil_append, List.map_cons, List.map_nil, waitGo]
    have hge : policy.notFoundTolerance ≤ f + 1 := by omega
    simp [hge, waitTime]
  | m0 :: ms, m, f, p, e, w, h, htime => by
    simp only [List.length_cons] at h htime
    have hlt : ¬ policy.notFoundTolerance ≤ f + 1 := by omega
    have hbound : e + w ≤ e + waitTime w policy.minPollInterval (ms.length + 1) := by
      rw [waitTime_succ]
      exact Nat.add_le_add_left (Nat.le_add_right w _) e
    have hnt : ¬ policy.timeout < e + w := Nat.not_lt.mpr (le_trans hbound htime)
    have htime' : e + w +
        waitTime policy.minPollInterval policy.minPollInterval ms.length ≤ policy.timeout := by
      rw [waitTime_self]
      have hsplit : e + w + ms.length * policy.minPollInterval =
          e + waitTime w policy.minPollInterval (ms.length + 1) := by
        rw [waitTime_succ]; ring
      rw [hsplit]
      exact htime
    have ih := waitGo_errors_abort policy ms m (f + 1) (p + 1) (e + w)
      policy.minPollInterval (by omega) htime'
    simp only [List.cons_append, List.map_cons, waitGo, hlt, hnt, if_false, List.append_eq, ih,
      List.length_cons, waitTime_succ, waitTime_self, Prod.mk.injEq, true_and]
    constructor
    · omega
    · ring

/-- C1: for every raw status string other than "FAILED" and "DONE", a
successful poll (non-empty path, status query succeeds) returns no error,
a nil payload, and the raw status itself as the current-state label, so
unknown or future status strings never break the wait loop. -/
theorem c1_unknown_status_is_pending (getRequestStatus : String → Except String Request)
    (path : String) (req : Request)
    (hp : path ≠ "") (hq : getRequestStatus path = Except.ok req)
    (hf : req.Metadata.Status ≠ "FAILED") (hd : req.Metadata.Status ≠ "DONE") :
    (resourceStateRefreshFunc getRequestStatus path).1 =
      { payload := none, state := req.Metadata.Status, err := none } := by
  simp [resourceStateRefreshFunc, hp, hq, hf, hd]

theorem c1_unknown_status_is_pending_witness :
    (resourceStateRefreshFunc (fun _ => Except.ok ⟨⟨"IN-PROGRESS", ""⟩⟩) "requests/1").1 =
      { payload := none, state := "IN-PROGRESS", err := none } :=
  c1_unknown_status_is_pending _ "requests/1" ⟨⟨"IN-PROGRESS", ""⟩⟩
    (by decide) rfl (by decide) (by decide)

/-- C3 counterexample: on raw status "FAILED" with remote message
"disk full", the surfaced error is not the message verbatim — the code
wraps it in a fixed prefix. -/
theorem c3_failed_message_counterexample :
    (resourceStateRefreshFunc (fun _ => Except.ok ⟨⟨"FAILED", "disk full"⟩⟩)
        "requests/1").1.err ≠ some "disk full" := by
  decide

/-- C3 (amended): on raw status "FAILED" the poll fails, and the surfaced
failure message is the fixed prefix "Request failed with following error: "
followed by the remote message — containing it verbatim rather than
equaling it — and is non-empty even when the remote message is empty. -/
theorem c3_failed_message_amended (getRequestStatus : String → Except String Request)
    (path : String) (req : Request)
    (hp : path ≠ "") (hq : getRequestStatus path = Except.ok req)
    (hf : req.Metadata.Status = "FAILED") :
    (resourceStateRefreshFunc getRequestStatus path).1.err =
      some ("Request failed with following error: " ++ req.Metadata.Message) ∧
    "Request failed with following error: " ++ req.Metadata.Message ≠ "" := by
  constructor
  · simp [resourceStateRefreshFunc, hp, hq, hf]
  · intro hcontra
    have hlen := congrArg String.length hcontra
    rw [String.length_append] at hlen
    have h37 : ("Request failed with following error: " : String).length = 37 := rfl
    have h0 : ("" : String).length = 0 := rfl
    rw [h37, h0] at hlen
    omega

theorem c3_failed_message_amended_witness :
    (resourceStateRefreshFunc (fun _ => Except.ok ⟨⟨"FAILED", ""⟩⟩) "requests/1").1.err =
      some ("Request failed with following error: " ++ "") ∧
    "Request failed with following error: " ++ "" ≠ "" :=
  c3_failed_message_amended _ "requests/1" ⟨⟨"FAILED", ""⟩⟩ (by decide) rfl rfl

/-- C4: on an empty operation handle the refresh function returns its
empty-path error without querying the remote client (the queried-path list
is empty), and the wait aborts immediately with zero polls issued. -/
theorem c4_empty_path_no_query (getRequestStatus : String → Except String Request)
    (policy : WaitPolicy) (trace : List (Except String Request)) :
    resourceStateRefreshFunc getRequestStatus "" =
      ({ payload := none, state := "",
         err := some "Can not check a state when path is empty" }, []) ∧
    waitForCompletion policy "" trace =
      (WaitResult.aborted "Can not check a state when path is empty", 0, 0) :=
  ⟨rfl, rfl⟩

/-- C5: on raw status "DONE", regardless of the accompanying message, the
poll succeeds and the request object itself is returned as the payload,
with "DONE" as the state label and no error. -/
theorem c5_done_returns_payload (getRequestStatus : String → Except String Request)
    (path : String) (req : Request)
    (hp : path ≠ "") (hq : getRequestStatus path = Except.ok req)
    (hd : req.Metadata.Status = "DONE") :
    (resourceStateRefreshFunc getRequestStatus path).1 =
      { payload := some req, state := "DONE", err := none } := by
  simp [resourceStateRefreshFunc, hp, hq, hd]

theorem c5_done_returns_payload_witness :
    (resourceStateRefreshFunc (fun _ => Except.ok ⟨⟨"DONE", "some message"⟩⟩)
        "requests/1").1 =
      { payload := some ⟨⟨"DONE", "some message"⟩⟩, state := "DONE", err := none } :=
  c5_done_returns_payload _ "requests/1" ⟨⟨"DONE", "some message"⟩⟩ (by decide) rfl rfl

/-- C7: for every operation kind (create, update, delete, default) the
default wait configuration is a 60-minute timeout, a 10-second minimum
poll interval, a 10-second initial delay, and a tolerance of 600
consecutive not-found polls. -/
theorem c7_default_wait_policy (k : TimeoutKind) :
    resourceDefaultTimeouts.timeoutFor k = some (60 * timeMinute) ∧
    (getStateChangeConf ((resourceDefaultTimeouts.timeoutFor k).getD 0)).Timeout =
      60 * timeMinute ∧
    (getStateChangeConf ((resourceDefaultTimeouts.timeoutFor k).getD 0)).MinTimeout =
      10 * timeSecond ∧
    (getStateChangeConf ((resourceDefaultTimeouts.timeoutFor k).getD 0)).Delay =
      10 * timeSecond ∧
    (getStateChangeConf ((resourceDefaultTimeouts.timeoutFor k).getD 0)).NotFoundChecks =
      600 := by
  cases k <;> exact ⟨rfl, rfl, rfl, rfl, rfl⟩

/-- C8: a successful status query yields a non-nil payload exactly when the
raw status is "DONE"; on any pending status (in particular RUNNING and
QUEUED) the refresh returns a nil payload with no error — at the wait-loop
level indistinguishable from a not-found result, which is counted against
the configured 600 not-found checks. -/
theorem c8_payload_only_when_done (getRequestStatus : String → Except String Request)
    (path : String) (req : Request)
    (hp : path ≠ "") (hq : getRequestStatus path = Except.ok req) :
    ((resourceStateRefreshFunc getRequestStatus path).1.payload ≠ none ↔
      req.Metadata.Status = "DONE") ∧
    (req.Metadata.Status ∈ resourcePendingStates →
      (resourceStateRefreshFunc getRequestStatus path).1 =
        { payload := none, state := req.Metadata.Status, err := none }) ∧
    (∀ t, (getStateChangeConf t).NotFoundChecks = 600) := by
  refine ⟨?_, ?_, fun t => rfl⟩
  · by_cases hf : req.Metadata.Status = "FAILED"
    · simp [resourceStateRefreshFunc, hp, hq, hf]
    · by_cases hd : req.Metadata.Status = "DONE"
      · simp [resourceStateRefreshFunc, hp, hq, hf, hd]
      · simp [resourceStateRefreshFunc, hp, hq, hf, hd]
  · intro hmem
    have hf : req.Metadata.Status ≠ "FAILED" := by
      intro hcontra
      rw [hcontra] at hmem
      simp [resourcePendingStates] at hmem
    have hd : req.Metadata.Status ≠ "DONE" := by
      intro hcontra
      rw [hcontra] at hmem
      simp [resourcePendingStates] at hmem
    simp [resourceStateRefreshFunc, hp, hq, hf, hd]

theorem c8_payload_only_when_done_witness :
    (((resourceStateRefreshFunc (fun _ => Except.ok ⟨⟨"RUNNING", ""⟩⟩)
          "requests/1").1.payload ≠ none ↔
        (⟨⟨"RUNNING", ""⟩⟩ : Request).Metadata.Status = "DONE") ∧
      ((⟨⟨"RUNNING", ""⟩⟩ : Request).Metadata.Status ∈ resourcePendingStates →
        (resourceStateRefreshFunc (fun _ => Except.ok ⟨⟨"RUNNING", ""⟩⟩)
            "requests/1").1 =
          { payload := none, state := (⟨⟨"RUNNING", ""⟩⟩ : Request).Metadata.Status,
            err := none }) ∧
      (∀ t, (getStateChangeConf t).NotFoundChecks = 600)) :=
  c8_payload_only_when_done _ "requests/1" ⟨⟨"RUNNING", ""⟩⟩ (by decide) rfl

/-- C9: `providerConfigure` rejects a configuration exactly when the token
is empty and the username or the password is unset, or the token is
non-empty and the username or the password is also set; in every other
case it builds the client config from the provided fields. -/
theorem c9_exactly_one_auth_method (u p t ep : String) (r : Int) :
    ((∃ e, providerConfigure u p t ep r = Except.error e) ↔
      ((t = "" ∧ (u = "" ∨ p = "")) ∨ (t ≠ "" ∧ (u ≠ "" ∨ p ≠ "")))) ∧
    (((t = "" ∧ u ≠ "" ∧ p ≠ "") ∨ (t ≠ "" ∧ u = "" ∧ p = "")) →
      providerConfigure u p t ep r =
        Except.ok { Username := u, Password := p, Endpoint := cleanURL ep,
                    Retries := r, Token := t }) := by
  by_cases ht : t = "" <;> by_cases hu : u = "" <;> by_cases hp : p = "" <;>
    simp [providerConfigure, ht, hu, hp]

theorem c9_exactly_one_auth_method_witness :
    ((∃ e, providerConfigure "" "" "tok-123" "https://api.example.test/" 50 =
        Except.error e) ↔
      ((("tok-123" : String) = "" ∧ (("" : String) = "" ∨ ("" : String) = "")) ∨
        (("tok-123" : String) ≠ "" ∧ (("" : String) ≠ "" ∨ ("" : String) ≠ "")))) ∧
    (((("tok-123" : String) = "" ∧ ("" : String) ≠ "" ∧ ("" : String) ≠ "") ∨
        (("tok-123" : String) ≠ "" ∧ ("" : String) = "" ∧ ("" : String) = "")) →
      providerConfigure "" "" "tok-123" "https://api.example.test/" 50 =
        Except.ok { Username := "", Password := "",
                    Endpoint := cleanURL "https://api.example.test/",
                    Retries := 50, Token := "tok-123" }) :=
  c9_exactly_one_auth_method "" "" "tok-123" "https://api.example.test/" 50

/-- C10: `cleanURL` strips exactly one trailing slash when the input has
length greater than 1 and ends in '/', returns every other input
unchanged (in particular the one-character string "/"), and is therefore
not idempotent on strings ending in two slashes. -/
theorem c10_cleanURL_strips_one_slash (url : String) :
    cleanURL url = cleanURLSpec url ∧
    cleanURL "/" = "/" ∧
    cleanURL (cleanURL "ab//") ≠ cleanURL "ab//" := by
  refine ⟨?_, by decide, by decide⟩
  by_cases h1 : url.length > 1 <;> by_cases h2 : url.back = '/' <;>
    simp [cleanURL, cleanURLSpec, h1, h2]

/-- C2: for any policy whose tolerance budget is the configured 600 and
whose timeout is not exhausted within the 600 polls (Scenario D's
setting — under the default 60-minute timeout the spec's TimedOut
transition would fire first), a trace of 600 consecutive transport
failures makes the wait abort with the last wrapped error after exactly
600 polls, while any shorter all-failure trace leaves the wait still
polling — a single transport error never terminates the wait by itself.
The configured budget in `getStateChangeConf` is indeed 600, as the last
conjunct states. -/
theorem c2_transport_error_budget (policy : WaitPolicy) (ms : List String) (m : String)
    (htol : policy.notFoundTolerance = 600)
    (h : ms.length = 599)
    (ht : policy.initialDelay + 599 * policy.minPollInterval ≤ policy.timeout) :
    waitForCompletion policy "requests/1" ((ms ++ [m]).map Except.error) =
      (WaitResult.aborted ("Request failed with following error: " ++ m), 600,
        policy.initialDelay + 599 * policy.minPollInterval) ∧
    (∀ ms2 : List String, ms2.length < 600 →
      (waitForCompletion policy "requests/1" (ms2.map Except.error)).1 =
        WaitResult.stillWaiting) ∧
    defaultWaitPolicy.notFoundTolerance = 600 := by
  have hpath : ("requests/1" == "") = false := by decide
  refine ⟨?_, ?_, rfl⟩
  · have hmul : 598 * policy.minPollInterval ≤ 599 * policy.minPollInterval :=
      Nat.mul_le_mul_right _ (by omega)
    have htime : (0 : Nat) +
        waitTime policy.initialDelay policy.minPollInterval ms.length ≤ policy.timeout := by
      rw [h]
      have hw : waitTime policy.initialDelay policy.minPollInterval 599 =
          policy.initialDelay + 598 * policy.minPollInterval := rfl
      rw [hw, Nat.zero_add]
      exact le_trans (Nat.add_le_add_left hmul _) ht
    have habort := waitGo_errors_abort policy ms m 0 0 0
      policy.initialDelay (by omega) htime
    rw [waitForCompletion, hpath]
    simp only [Bool.false_eq_true, if_false, habort, h, waitTime_succ]
    simp
  · intro ms2 h2
    have htime2 : (0 : Nat) +
        waitTime policy.initialDelay policy.minPollInterval ms2.length ≤ policy.timeout := by
      rw [Nat.zero_add]
      refine le_trans ?_ ht
      cases hn : ms2.length with
      | zero => simp [waitTime]
      | succ n =>
        rw [waitTime_succ]
        have hn599 : n ≤ 599 := by omega
        exact Nat.add_le_add_left (Nat.mul_le_mul_right _ hn599) _
    have hpend := waitGo_errors_pending policy ms2 0 0 0
      policy.initialDelay (by omega) htime2
    rw [waitForCompletion, hpath]
    simp [hpend]

theorem c2_transport_error_budget_witness :
    (waitForCompletion scenarioDPolicy "requests/1"
        ((List.replicate 599 "connection refused" ++ ["final failure"]).map
          Except.error) =
      (WaitResult.aborted ("Request failed with following error: " ++ "final failure"),
        600, scenarioDPolicy.initialDelay + 599 * scenarioDPolicy.minPollInterval) ∧
    (∀ ms2 : List String, ms2.length < 600 →
      (waitForCompletion scenarioDPolicy "requests/1" (ms2.map Except.error)).1 =
        WaitResult.stillWaiting) ∧
    defaultWaitPolicy.notFoundTolerance = 600) :=
  c2_transport_error_budget scenarioDPolicy (List.replicate 599 "connection refused")
    "final failure" rfl (by rw [List.length_replicate]) (by decide)

/-- C6: for the poll result sequence [QUEUED, RUNNING, RUNNING, DONE] under
the default policy, the wait succeeds after exactly 4 polls, and the lower
bound on elapsed time is exactly the initial delay plus three times the
minimum poll interval — so the real elapsed time is at least that. -/
theorem c6_four_polls_to_success :
    waitForCompletion defaultWaitPolicy "requests/1"
        [Except.ok ⟨⟨"QUEUED", ""⟩⟩, Except.ok ⟨⟨"RUNNING", ""⟩⟩,
         Except.ok ⟨⟨"RUNNING", ""⟩⟩, Except.ok ⟨⟨"DONE", ""⟩⟩] =
      (WaitResult.success ⟨⟨"DONE", ""⟩⟩, 4,
        defaultWaitPolicy.initialDelay + 3 * defaultWaitPolicy.minPollInterval) := by
  decide

theorem c4_empty_path_no_query_witness :
    resourceStateRefreshFunc (fun _ => Except.ok ⟨⟨"DONE", ""⟩⟩) "" =
      ({ payload := none, state := "",
         err := some "Can not check a state when path is empty" }, []) ∧
    waitForCompletion defaultWaitPolicy "" [Except.ok ⟨⟨"DONE", ""⟩⟩] =
      (WaitResult.aborted "Can not check a state when path is empty", 0, 0) :=
  c4_empty_path_no_query (fun _ => Except.ok ⟨⟨"DONE", ""⟩⟩) defaultWaitPolicy
    [Except.ok ⟨⟨"DONE", ""⟩⟩]

theorem c7_default_wait_policy_witness :
    resourceDefaultTimeouts.timeoutFor TimeoutKind.create = some (60 * timeMinute) ∧
    (getStateChangeConf
        ((resourceDefaultTimeouts.timeoutFor TimeoutKind.create).getD 0)).Timeout =
      60 * timeMinute ∧
    (getStateChangeConf
        ((resourceDefaultTimeouts.timeoutFor TimeoutKind.create).getD 0)).MinTimeout =
      10 * timeSecond ∧
    (getStateChangeConf
        ((resourceDefaultTimeouts.timeoutFor TimeoutKind.create).getD 0)).Delay =
      10 * timeSecond ∧
    (getStateChangeConf
        ((resourceDefaultTimeouts.timeoutFor TimeoutKind.create).getD 0)).NotFoundChecks =
      600 :=
  c7_default_wait_policy TimeoutKind.create

theorem c10_cleanURL_strips_one_slash_witness :
    cleanURL "ab/" = cleanURLSpec "ab/" ∧
    cleanURL "/" = "/" ∧
    cleanURL (cleanURL "ab//") ≠ cleanURL "ab//" :=
  c10_cleanURL_strips_one_slash "ab/"
